import Mathlib

/-!
Verification of the supply-chain board-metrics program (`src/main.rs`,
`src/block_payload.rs`, `src/custom_error.rs`) against its natural-language
specification.

Shallow embedding conventions:
* JSON values are modelled by the inductive `Json`; `f64`/`f32` values are
  modelled by `ℚ` (the codec never computes with them, it only stores them).
* serde's derived serializers emit object fields in declaration order with
  `rename_all = "camelCase"` names; `Option` fields serialize `None` as
  `null` and deserialize a missing or `null` field as `None`.
* serde's derived deserializers look fields up by name and ignore unknown
  fields; the `#[serde(untagged)]` union `BlockData` is decoded by trying
  each variant in declaration order and accepting the first match.
* Rust `Result<T, Error>` becomes `Except Error T`; the thread-local random
  draw in `gen_random_number` becomes an explicit argument `r : ℚ`, and the
  wall clock of the sampling loop becomes an explicit function
  `elapsed : ℕ → ℕ` giving the elapsed time observed at the end-of-iteration
  check of each iteration.
-/

/-- A JSON value as produced/consumed by serde_json, with numbers carried
exactly (as rationals). -/
inductive Json where
  | null : Json
  | str (s : String) : Json
  | num (q : ℚ) : Json
  | arr (items : List Json) : Json
  | obj (fields : List (String × Json)) : Json

/-- Field lookup in a JSON object's field list, first occurrence wins
(serde errors on duplicate fields; encoded objects never duplicate). -/
def jLookup (fields : List (String × Json)) (key : String) : Option Json :=
  match fields with
  | [] => none
  | (k, v) :: rest => if k = key then some v else jLookup rest key

/-- The field list of an object value (empty for non-objects). -/
def jFields : Json → List (String × Json)
  | .obj fs => fs
  | _ => []

def asString : Json → Option String
  | .str s => some s
  | _ => none

def asNumber : Json → Option ℚ
  | .num q => some q
  | _ => none

def asStringAll : List Json → Option (List String)
  | [] => some []
  | j :: rest =>
    match asString j, asStringAll rest with
    | some s, some r => some (s :: r)
    | _, _ => none

def asStringList : Json → Option (List String)
  | .arr items => asStringAll items
  | _ => none

/-- A required string field of an object. -/
def reqString (fields : List (String × Json)) (key : String) : Option String :=
  match jLookup fields key with
  | some j => asString j
  | none => none

/-- A required number field of an object. -/
def reqNumber (fields : List (String × Json)) (key : String) : Option ℚ :=
  match jLookup fields key with
  | some j => asNumber j
  | none => none

/-- A required string-array field of an object. -/
def reqStringList (fields : List (String × Json)) (key : String) : Option (List String) :=
  match jLookup fields key with
  | some j => asStringList j
  | none => none

/-- An `Option<String>` field: serde treats a missing field or `null` as
`None`, a string as `Some`, anything else is an error. -/
def optStringField (fields : List (String × Json)) (key : String) : Option (Option String) :=
  match jLookup fields key with
  | none => some none
  | some .null => some none
  | some (.str s) => some (some s)
  | some _ => none

/-! ## Data model (src/block_payload.rs) -/

/-- `PaymentInfo { wallet_address, smr_cost }`. -/
structure PaymentInfo where
  wallet_address : String
  smr_cost : ℚ
deriving DecidableEq

/-- `Resource { previous_block, transaction_receipt }`. -/
structure Resource where
  previous_block : String
  transaction_receipt : String
deriving DecidableEq

/-- `Resources { previous_blocks, transaction_receipts }`. -/
structure Resources where
  previous_blocks : List String
  transaction_receipts : List String
deriving DecidableEq

/-- `ProductInfo { info, file_cid }`. -/
structure ProductInfo where
  info : String
  file_cid : Option String
deriving DecidableEq

/-- `ExportLocation { longitude, latitude }` (`f32` modelled as `ℚ`). -/
structure ExportLocation where
  longitude : ℚ
  latitude : ℚ
deriving DecidableEq

/-- `RawMaterialsProducerBlockData`. -/
structure RawMaterialsProducerBlockData where
  provider_info : String
  material_info : ProductInfo
  export_timestamp : String
  export_location : ExportLocation
  payment_info : PaymentInfo
deriving DecidableEq

/-- `SupplierBlockData`. -/
structure SupplierBlockData where
  supplier_info : String
  processed_material_info : ProductInfo
  resources : Resources
  payment_info : PaymentInfo
deriving DecidableEq

/-- `ManufacturerBlockData`. -/
structure ManufacturerBlockData where
  manufacturer_info : String
  product_info : ProductInfo
  resources : Resources
  payment_info : PaymentInfo
deriving DecidableEq

/-- `DistributorBlockData`. -/
structure DistributorBlockData where
  distributor_info : String
  product_distribution_info : ProductInfo
  resource : Resource
  payment_info : PaymentInfo
deriving DecidableEq

/-- `RetailerBlockData`. -/
structure RetailerBlockData where
  retailer_info : String
  product_retail_info : ProductInfo
  payment_info : PaymentInfo
  resource : Resource
deriving DecidableEq

/-- `ConsumerBlockData`. -/
structure ConsumerBlockData where
  consumer_info : String
  resource : Resource
deriving DecidableEq

/-- `StartTransportationData`. -/
structure StartTransportationData where
  transportation_company_info : String
  transportation_info : ProductInfo
  start_timestamp : String
  previous_block : String
deriving DecidableEq

/-- `DeliveredTransportationData`. -/
structure DeliveredTransportationData where
  product_delivery_info : ProductInfo
  delivery_timestamp : String
  payment_info : PaymentInfo
  metrics : List String
deriving DecidableEq

/-- `MetricData`. -/
structure MetricData where
  metric_type : String
  metric_value : ℚ
  measurement_unit : String
  timestamp : String
  previous_block : String
deriving DecidableEq

/-- The `#[serde(untagged)]` union `BlockData`, variants in the Rust
declaration order. -/
inductive BlockData where
  | basicBlockData (s : String)
  | rawMaterialsProducerBlockData (d : RawMaterialsProducerBlockData)
  | supplierBlockData (d : SupplierBlockData)
  | manufacturerBlockData (d : ManufacturerBlockData)
  | distributorBlockData (d : DistributorBlockData)
  | retailerBlockData (d : RetailerBlockData)
  | consumerBlockData (d : ConsumerBlockData)
  | startTransportationData (d : StartTransportationData)
  | deliveredTransportationData (d : DeliveredTransportationData)
  | metricData (d : MetricData)
deriving DecidableEq

/-- Write-side envelope `BlockPayload { tag, data }`. -/
structure BlockPayload where
  tag : String
  data : BlockData
deriving DecidableEq

/-- Read-side envelope `TaggedDataPayload { block_type, data }`
(wire name `blockType`). -/
structure TaggedDataPayload where
  block_type : String
  data : BlockData
deriving DecidableEq

/-! ### Serializers (serde derive, camelCase, declaration order) -/

def PaymentInfo.toJson (p : PaymentInfo) : Json :=
  .obj [("walletAddress", .str p.wallet_address), ("smrCost", .num p.smr_cost)]

def Resource.toJson (r : Resource) : Json :=
  .obj [("previousBlock", .str r.previous_block),
        ("transactionReceipt", .str r.transaction_receipt)]

def Resources.toJson (r : Resources) : Json :=
  .obj [("previousBlocks", .arr (r.previous_blocks.map Json.str)),
        ("transactionReceipts", .arr (r.transaction_receipts.map Json.str))]

def ProductInfo.toJson (p : ProductInfo) : Json :=
  .obj [("info", .str p.info),
        ("fileCid", match p.file_cid with
                    | some c => .str c
                    | none => .null)]

def ExportLocation.toJson (l : ExportLocation) : Json :=
  .obj [("longitude", .num l.longitude), ("latitude", .num l.latitude)]

def RawMaterialsProducerBlockData.toJson (d : RawMaterialsProducerBlockData) : Json :=
  .obj [("providerInfo", .str d.provider_info),
        ("materialInfo", d.material_info.toJson),
        ("exportTimestamp", .str d.export_timestamp),
        ("exportLocation", d.export_location.toJson),
        ("paymentInfo", d.payment_info.toJson)]

def SupplierBlockData.toJson (d : SupplierBlockData) : Json :=
  .obj [("supplierInfo", .str d.supplier_info),
        ("processedMaterialInfo", d.processed_material_info.toJson),
        ("resources", d.resources.toJson),
        ("paymentInfo", d.payment_info.toJson)]

def ManufacturerBlockData.toJson (d : ManufacturerBlockData) : Json :=
  .obj [("manufacturerInfo", .str d.manufacturer_info),
        ("productInfo", d.product_info.toJson),
        ("resources", d.resources.toJson),
        ("paymentInfo", d.payment_info.toJson)]

def DistributorBlockData.toJson (d : DistributorBlockData) : Json :=
  .obj [("distributorInfo", .str d.distributor_info),
        ("productDistributionInfo", d.product_distribution_info.toJson),
        ("resource", d.resource.toJson),
        ("paymentInfo", d.payment_info.toJson)]

def RetailerBlockData.toJson (d : RetailerBlockData) : Json :=
  .obj [("retailerInfo", .str d.retailer_info),
        ("productRetailInfo", d.product_retail_info.toJson),
        ("paymentInfo", d.payment_info.toJson),
        ("resource", d.resource.toJson)]

def ConsumerBlockData.toJson (d : ConsumerBlockData) : Json :=
  .obj [("consumerInfo", .str d.consumer_info),
        ("resource", d.resource.toJson)]

def StartTransportationData.toJson (d : StartTransportationData) : Json :=
  .obj [("transportationCompanyInfo", .str d.transportation_company_info),
        ("transportationInfo", d.transportation_info.toJson),
        ("startTimestamp", .str d.start_timestamp),
        ("previousBlock", .str d.previous_block)]

def DeliveredTransportationData.toJson (d : DeliveredTransportationData) : Json :=
  .obj [("productDeliveryInfo", d.product_delivery_info.toJson),
        ("deliveryTimestamp", .str d.delivery_timestamp),
        ("paymentInfo", d.payment_info.toJson),
        ("metrics", .arr (d.metrics.map Json.str))]

def MetricData.toJson (d : MetricData) : Json :=
  .obj [("metricType", .str d.metric_type),
        ("metricValue", .num d.metric_value),
        ("measurementUnit", .str d.measurement_unit),
        ("timestamp", .str d.timestamp),
        ("previousBlock", .str d.previous_block)]

/-- Untagged serialization: no wrapper around the variant content. -/
def BlockData.toJson : BlockData → Json
  | .basicBlockData s => .str s
  | .rawMaterialsProducerBlockData d => d.toJson
  | .supplierBlockData d => d.toJson
  | .manufacturerBlockData d => d.toJson
  | .distributorBlockData d => d.toJson
  | .retailerBlockData d => d.toJson
  | .consumerBlockData d => d.toJson
  | .startTransportationData d => d.toJson
  | .deliveredTransportationData d => d.toJson
  | .metricData d => d.toJson

def BlockPayload.toJson (p : BlockPayload) : Json :=
  .obj [("tag", .str p.tag), ("data", p.data.toJson)]

def TaggedDataPayload.toJson (p : TaggedDataPayload) : Json :=
  .obj [("blockType", .str p.block_type), ("data", p.data.toJson)]

/-! ### Deserializers (serde derive: by-name field lookup, unknown fields
ignored; the untagged union tries variants in declaration order) -/

def PaymentInfo.fromJson (j : Json) : Option PaymentInfo :=
  match j with
  | .obj fs =>
    match reqString fs "walletAddress", reqNumber fs "smrCost" with
    | some w, some c => some ⟨w, c⟩
    | _, _ => none
  | _ => none

def Resource.fromJson (j : Json) : Option Resource :=
  match j with
  | .obj fs =>
    match reqString fs "previousBlock", reqString fs "transactionReceipt" with
    | some p, some t => some ⟨p, t⟩
    | _, _ => none
  | _ => none

def Resources.fromJson (j : Json) : Option Resources :=
  match j with
  | .obj fs =>
    match reqStringList fs "previousBlocks", reqStringList fs "transactionReceipts" with
    | some p, some t => some ⟨p, t⟩
    | _, _ => none
  | _ => none

def ProductInfo.fromJson (j : Json) : Option ProductInfo :=
  match j with
  | .obj fs =>
    match reqString fs "info", optStringField fs "fileCid" with
    | some i, some c => some ⟨i, c⟩
    | _, _ => none
  | _ => none

def ExportLocation.fromJson (j : Json) : Option ExportLocation :=
  match j with
  | .obj fs =>
    match reqNumber fs "longitude", reqNumber fs "latitude" with
    | some lo, some la => some ⟨lo, la⟩
    | _, _ => none
  | _ => none

def jField (fields : List (String × Json)) (key : String)
    {α : Type} (read : Json → Option α) : Option α :=
  match jLookup fields key with
  | some j => read j
  | none => none

def RawMaterialsProducerBlockData.fromJson (j : Json) : Option RawMaterialsProducerBlockData :=
  match j with
  | .obj fs =>
    match reqString fs "providerInfo", jField fs "materialInfo" ProductInfo.fromJson,
          reqString fs "exportTimestamp", jField fs "exportLocation" ExportLocation.fromJson,
          jField fs "paymentInfo" PaymentInfo.fromJson with
    | some a, some b, some c, some d, some e => some ⟨a, b, c, d, e⟩
    | _, _, _, _, _ => none
  | _ => none

def SupplierBlockData.fromJson (j : Json) : Option SupplierBlockData :=
  match j with
  | .obj fs =>
    match reqString fs "supplierInfo", jField fs "processedMaterialInfo" ProductInfo.fromJson,
          jField fs "resources" Resources.fromJson, jField fs "paymentInfo" PaymentInfo.fromJson with
    | some a, some b, some c, some d => some ⟨a, b, c, d⟩
    | _, _, _, _ => none
  | _ => none

def ManufacturerBlockData.fromJson (j : Json) : Option ManufacturerBlockData :=
  match j with
  | .obj fs =>
    match reqString fs "manufacturerInfo", jField fs "productInfo" ProductInfo.fromJson,
          jField fs "resources" Resources.fromJson, jField fs "paymentInfo" PaymentInfo.fromJson with
    | some a, some b, some c, some d => some ⟨a, b, c, d⟩
    | _, _, _, _ => none
  | _ => none

def DistributorBlockData.fromJson (j : Json) : Option DistributorBlockData :=
  match j with
  | .obj fs =>
    match reqString fs "distributorInfo", jField fs "productDistributionInfo" ProductInfo.fromJson,
          jField fs "resource" Resource.fromJson, jField fs "paymentInfo" PaymentInfo.fromJson with
    | some a, some b, some c, some d => some ⟨a, b, c, d⟩
    | _, _, _, _ => none
  | _ => none

def RetailerBlockData.fromJson (j : Json) : Option RetailerBlockData :=
  match j with
  | .obj fs =>
    match reqString fs "retailerInfo", jField fs "productRetailInfo" ProductInfo.fromJson,
          jField fs "paymentInfo" PaymentInfo.fromJson, jField fs "resource" Resource.fromJson with
    | some a, some b, some c, some d => some ⟨a, b, c, d⟩
    | _, _, _, _ => none
  | _ => none

def ConsumerBlockData.fromJson (j : Json) : Option ConsumerBlockData :=
  match j with
  | .obj fs =>
    match reqString fs "consumerInfo", jField fs "resource" Resource.fromJson with
    | some a, some b => some ⟨a, b⟩
    | _, _ => none
  | _ => none

def StartTransportationData.fromJson (j : Json) : Option StartTransportationData :=
  match j with
  | .obj fs =>
    match reqString fs "transportationCompanyInfo",
          jField fs "transportationInfo" ProductInfo.fromJson,
          reqString fs "startTimestamp", reqString fs "previousBlock" with
    | some a, some b, some c, some d => some ⟨a, b, c, d⟩
    | _, _, _, _ => none
  | _ => none

def DeliveredTransportationData.fromJson (j : Json) : Option DeliveredTransportationData :=
  match j with
  | .obj fs =>
    match jField fs "productDeliveryInfo" ProductInfo.fromJson,
          reqString fs "deliveryTimestamp", jField fs "paymentInfo" PaymentInfo.fromJson,
          reqStringList fs "metrics" with
    | some a, some b, some c, some d => some ⟨a, b, c, d⟩
    | _, _, _, _ => none
  | _ => none

def MetricData.fromJson (j : Json) : Option MetricData :=
  match j with
  | .obj fs =>
    match reqString fs "metricType", reqNumber fs "metricValue",
          reqString fs "measurementUnit", reqString fs "timestamp",
          reqString fs "previousBlock" with
    | some a, some b, some c, some d, some e => some ⟨a, b, c, d, e⟩
    | _, _, _, _, _ => none
  | _ => none

/-- Untagged union decoding: try each variant in the Rust declaration order,
accept the first structural match. -/
def BlockData.fromJson (j : Json) : Option BlockData :=
  (asString j).map .basicBlockData <|>
  (RawMaterialsProducerBlockData.fromJson j).map .rawMaterialsProducerBlockData <|>
  (SupplierBlockData.fromJson j).map .supplierBlockData <|>
  (ManufacturerBlockData.fromJson j).map .manufacturerBlockData <|>
  (DistributorBlockData.fromJson j).map .distributorBlockData <|>
  (RetailerBlockData.fromJson j).map .retailerBlockData <|>
  (ConsumerBlockData.fromJson j).map .consumerBlockData <|>
  (StartTransportationData.fromJson j).map .startTransportationData <|>
  (DeliveredTransportationData.fromJson j).map .deliveredTransportationData <|>
  (MetricData.fromJson j).map .metricData

def BlockPayload.fromJson (j : Json) : Option BlockPayload :=
  match j with
  | .obj fs =>
    match reqString fs "tag", jField fs "data" BlockData.fromJson with
    | some t, some d => some ⟨t, d⟩
    | _, _ => none
  | _ => none

def TaggedDataPayload.fromJson (j : Json) : Option TaggedDataPayload :=
  match j with
  | .obj fs =>
    match reqString fs "blockType", jField fs "data" BlockData.fromJson with
    | some t, some d => some ⟨t, d⟩
    | _, _ => none
  | _ => none

/-! ## Errors (src/custom_error.rs)

The `thiserror` enum; the transparent payloads of the non-`Anyhow` arms are
not consulted by the program, so they are modelled without data. -/

inductive Error where
  | anyhow (msg : String)
  | io
  | iotaClientError
  | iotaBlockError
  | envError
  | fromUtf8Error
  | serdeError
deriving DecidableEq

/-! ## main.rs -/

/-- The outer transport payload of a fetched block (`PayloadDto` of the
ledger SDK). Only the tagged-data kind carries a body the program reads; its
raw bytes are modelled at the JSON level (a body that is not valid
UTF-8/JSON is outside this embedding, which starts from decoded
`TaggedEnvelope`s). The remaining transport kinds are collapsed into two
representatives matched by the wildcard arm of `extract_payment_info`. -/
inductive PayloadDto where
  | taggedData (body : Json)
  | transaction
  | milestone

/-- The fetched block (`BlockDto`); only its `payload` field is consulted by
`extract_payment_info`, the other fields are omitted. -/
structure BlockDto where
  payload : Option PayloadDto

/-- `extract_payment_info` (src/main.rs lines 99-132): unwrap the optional
payload, require the tagged-data transport kind, parse the body as a
`TaggedDataPayload`, and return the embedded `PaymentInfo` for the five
payment-bearing variants. -/
def extract_payment_info (block : BlockDto) : Except Error PaymentInfo :=
  match block.payload with
  | none => .error (.anyhow "Block has no payload")
  | some blockPayload =>
    match blockPayload with
    | .taggedData body =>
      match TaggedDataPayload.fromJson body with
      | none => .error .serdeError
      | some env =>
        match env.data with
        | .rawMaterialsProducerBlockData d => .ok d.payment_info
        | .supplierBlockData d => .ok d.payment_info
        | .manufacturerBlockData d => .ok d.payment_info
        | .distributorBlockData d => .ok d.payment_info
        | .retailerBlockData d => .ok d.payment_info
        | _ => .error (.anyhow "Block payload does not contain payment info data")
    | _ => .error (.anyhow "Block payload is not tagged data")

/-- Rust's `input.starts_with("0x")`: the first two characters are `0x`
(for this all-ASCII pattern, byte-level and character-level comparison
coincide). -/
def startsWith0x (s : String) : Bool :=
  match s.data with
  | c0 :: c1 :: _ => c0 == '0' && c1 == 'x'
  | _ => false

/-- The validation performed by `block_id_input` (src/main.rs lines 57-67)
on the candidate root identifier, after it has been obtained from the
environment or the interactive prompt (both external collaborators).
Rust's `input.len()` is the UTF-8 byte length, which coincides with the
character count on the ASCII identifiers this check is about. -/
def validate_block_id (input : String) : Except Error String :=
  if ¬ startsWith0x input then
    .error (.anyhow "BlockId must start with 0x")
  else if input.length ≠ 66 then
    .error (.anyhow "BlockId must be 66 characters long")
  else
    .ok input

/-- The sequencing of `main` up to the first ledger interaction:
`block_id_input()` is unwrapped before `create_iota_client`/`get_block`
run, so a validation failure happens with zero gateway calls. The second
component counts the gateway fetches performed. -/
def init_then_fetch (input : String) (fetch : String → Except Error BlockDto) :
    Except Error BlockDto × ℕ :=
  match validate_block_id input with
  | .error e => (.error e, 0)
  | .ok id => (fetch id, 1)

/-! ### Metric sampler (src/main.rs lines 200-209)

`f64` arithmetic is modelled over `ℚ`; the `rand` draw `rng.gen::<f64>()`,
which lies in `[0, 1)`, becomes the explicit argument `r`. Rust's
`f64::round` rounds half away from zero. -/

/-- Rust `f64::round`: round half away from zero. -/
def rustRound (q : ℚ) : ℤ :=
  if 0 ≤ q then ⌊q + 1 / 2⌋ else -⌊-q + 1 / 2⌋

/-- `gen_random_number`: scale the draw into `[min, max]` and round the
result to two decimal places. The function has no error branch: it always
returns `Ok`. -/
def gen_random_number (min max r : ℚ) : Except Error ℚ :=
  let random_number := r
  let number := min + (max - min) * random_number
  let res := (rustRound (number * 100) : ℚ) / 100
  .ok res

/-! ### The sampling loop (src/main.rs lines 310-334)

State and iteration structure of the `loop` in `main`. Post outcomes are an
explicit oracle `outcomes : ℕ → Option String × Option String`: component 1
is the result of the temperature post of that iteration (`some id` when the
post succeeded with the fresh block id, `none` when it failed), component 2
the humidity post. `elapsed i` is the wall-clock reading
`start_time.elapsed()` observed at the end-of-iteration check of iteration
`i`, and `budget` the configured duration. Fuel makes the recursion total;
`none` means the loop had not exited within `fuel` iterations. -/

structure SamplingState where
  temperature_previous_block : String
  humidity_previous_block : String
  metrics : List String
deriving DecidableEq

/-- One post attempt and its observable outcome, in program order. -/
inductive PostEvent where
  | temperaturePost (iter : ℕ) (result : Option String)
  | humidityPost (iter : ℕ) (result : Option String)
deriving DecidableEq

/-- `match post { Ok(id) => tip = id, Err(_) => log }`: a successful post
advances the chain tip, a failed one leaves it unchanged. -/
def applyPost (tip : String) (result : Option String) : String :=
  match result with
  | some id => id
  | none => tip

def samplingLoop (budget : ℕ) (elapsed : ℕ → ℕ)
    (outcomes : ℕ → Option String × Option String) :
    ℕ → ℕ → SamplingState → List PostEvent →
    Option (SamplingState × ℕ × List PostEvent)
  | 0, _, _, _ => none
  | fuel + 1, i, s, trace =>
    let t := applyPost s.temperature_previous_block (outcomes i).1
    let h := applyPost s.humidity_previous_block (outcomes i).2
    let trace' := trace ++ [.temperaturePost i (outcomes i).1, .humidityPost i (outcomes i).2]
    if budget ≤ elapsed i then
      some (⟨t, h, s.metrics ++ [t, h]⟩, i + 1, trace')
    else
      samplingLoop budget elapsed outcomes fuel (i + 1) ⟨t, h, s.metrics⟩ trace'

/-- The loop as entered by `main`: both chain tips seeded with the
`StartTransportation` block id, empty `metrics`. Returns the final state,
the number of iterations run, and the trace of post attempts. -/
def runSampling (startId : String) (budget : ℕ) (elapsed : ℕ → ℕ)
    (outcomes : ℕ → Option String × Option String) (fuel : ℕ) :
    Option (SamplingState × ℕ × List PostEvent) :=
  samplingLoop budget elapsed outcomes fuel 0 ⟨startId, startId, []⟩ []

/-- The ids of the successful posts among `results i, results (i+1), ...`
for `k` iterations: the records actually linked into one sub-chain. -/
def chainFrom (results : ℕ → Option String) (i k : ℕ) : List String :=
  match k with
  | 0 => []
  | k + 1 =>
    match results i with
    | some id => id :: chainFrom results (i + 1) k
    | none => chainFrom results (i + 1) k

/-- The post attempts emitted by iterations `i, i+1, ...` for `k`
iterations, in program order (temperature first, then humidity). -/
def attemptsFrom (outcomes : ℕ → Option String × Option String) (i k : ℕ) :
    List PostEvent :=
  match k with
  | 0 => []
  | k + 1 =>
    .temperaturePost i (outcomes i).1 :: .humidityPost i (outcomes i).2 ::
      attemptsFrom outcomes (i + 1) k

/-- The chain tip after folding `k` iterations' post results from `i`. -/
def tipFrom (results : ℕ → Option String) (start : String) (i k : ℕ) : String :=
  match k with
  | 0 => start
  | k + 1 => tipFrom results (applyPost start (results i)) (i + 1) k

/-! ## Codec lemmas -/

theorem paymentInfo_roundtrip (p : PaymentInfo) :
    PaymentInfo.fromJson p.toJson = some p := by
  cases p
  rfl

theorem resource_roundtrip (r : Resource) :
    Resource.fromJson r.toJson = some r := by
  cases r
  rfl

theorem asStringAll_map_str (l : List String) : asStringAll (l.map Json.str) = some l := by
  induction l with
  | nil => rfl
  | cons a t ih => simp [asStringAll, asString, ih]

theorem resources_roundtrip (r : Resources) :
    Resources.fromJson r.toJson = some r := by
  obtain ⟨a, b⟩ := r
  simp [Resources.fromJson, Resources.toJson, reqStringList, jLookup, asStringList,
    asStringAll_map_str]

theorem productInfo_roundtrip (p : ProductInfo) :
    ProductInfo.fromJson p.toJson = some p := by
  obtain ⟨i, c⟩ := p
  cases c <;> rfl

theorem exportLocation_roundtrip (l : ExportLocation) :
    ExportLocation.fromJson l.toJson = some l := by
  cases l
  rfl

theorem rawMaterialsStruct_roundtrip (d : RawMaterialsProducerBlockData) :
    RawMaterialsProducerBlockData.fromJson d.toJson = some d := by
  obtain ⟨a, b, c, e, f⟩ := d
  simp [RawMaterialsProducerBlockData.fromJson, RawMaterialsProducerBlockData.toJson,
    reqString, jField, jLookup, asString, productInfo_roundtrip,
    exportLocation_roundtrip, paymentInfo_roundtrip]

theorem supplierStruct_roundtrip (d : SupplierBlockData) :
    SupplierBlockData.fromJson d.toJson = some d := by
  obtain ⟨a, b, c, e⟩ := d
  simp [SupplierBlockData.fromJson, SupplierBlockData.toJson, reqString, jField, jLookup,
    asString, productInfo_roundtrip, resources_roundtrip, paymentInfo_roundtrip]

theorem manufacturerStruct_roundtrip (d : ManufacturerBlockData) :
    ManufacturerBlockData.fromJson d.toJson = some d := by
  obtain ⟨a, b, c, e⟩ := d
  simp [ManufacturerBlockData.fromJson, ManufacturerBlockData.toJson, reqString, jField, jLookup,
    asString, productInfo_roundtrip, resources_roundtrip, paymentInfo_roundtrip]

theorem distributorStruct_roundtrip (d : DistributorBlockData) :
    DistributorBlockData.fromJson d.toJson = some d := by
  obtain ⟨a, b, c, e⟩ := d
  simp [DistributorBlockData.fromJson, DistributorBlockData.toJson, reqString, jField, jLookup,
    asString, productInfo_roundtrip, resource_roundtrip, paymentInfo_roundtrip]

theorem retailerStruct_roundtrip (d : RetailerBlockData) :
    RetailerBlockData.fromJson d.toJson = some d := by
  obtain ⟨a, b, c, e⟩ := d
  simp [RetailerBlockData.fromJson, RetailerBlockData.toJson, reqString, jField, jLookup,
    asString, productInfo_roundtrip, resource_roundtrip, paymentInfo_roundtrip]

theorem consumerStruct_roundtrip (d : ConsumerBlockData) :
    ConsumerBlockData.fromJson d.toJson = some d := by
  obtain ⟨a, b⟩ := d
  simp [ConsumerBlockData.fromJson, ConsumerBlockData.toJson, reqString, jField, jLookup,
    asString, resource_roundtrip]

theorem startTransportationStruct_roundtrip (d : StartTransportationData) :
    StartTransportationData.fromJson d.toJson = some d := by
  obtain ⟨a, b, c, e⟩ := d
  simp [StartTransportationData.fromJson, StartTransportationData.toJson, reqString, jField,
    jLookup, asString, productInfo_roundtrip]

theorem deliveredTransportationStruct_roundtrip (d : DeliveredTransportationData) :
    DeliveredTransportationData.fromJson d.toJson = some d := by
  obtain ⟨a, b, c, e⟩ := d
  simp [DeliveredTransportationData.fromJson, DeliveredTransportationData.toJson, reqString,
    reqStringList, jField, jLookup, asString, asStringList, asStringAll_map_str,
    productInfo_roundtrip, paymentInfo_roundtrip]

theorem metricStruct_roundtrip (d : MetricData) :
    MetricData.fromJson d.toJson = some d := by
  cases d
  rfl

/-- Decoding an encoded `RawMaterialsProducerBlockData` value selects that
variant: the one earlier alternative (`BasicBlockData`) only matches JSON
strings. -/
theorem blockData_rt_rawMaterials (d : RawMaterialsProducerBlockData) :
    BlockData.fromJson (BlockData.toJson (.rawMaterialsProducerBlockData d)) =
      some (.rawMaterialsProducerBlockData d) := by
  obtain ⟨a, b, c, e, f⟩ := d
  have h0 : asString (RawMaterialsProducerBlockData.toJson ⟨a, b, c, e, f⟩) = none := rfl
  simp [BlockData.fromJson, BlockData.toJson, h0,
    rawMaterialsStruct_roundtrip, Option.orElse]

/-- Decoding an encoded `SupplierBlockData` value selects that variant: every
earlier alternative fails (each looks up a required field that is unique to
it and absent from a supplier object). -/
theorem blockData_rt_supplier (d : SupplierBlockData) :
    BlockData.fromJson (BlockData.toJson (.supplierBlockData d)) =
      some (.supplierBlockData d) := by
  obtain ⟨a, b, c, e⟩ := d
  have h0 : asString (SupplierBlockData.toJson ⟨a, b, c, e⟩) = none := rfl
  have h1 : RawMaterialsProducerBlockData.fromJson (SupplierBlockData.toJson ⟨a, b, c, e⟩) =
      none := rfl
  simp [BlockData.fromJson, BlockData.toJson, h0, h1,
    supplierStruct_roundtrip, Option.orElse]

/-- Decoding an encoded `ManufacturerBlockData` value selects that variant. -/
theorem blockData_rt_manufacturer (d : ManufacturerBlockData) :
    BlockData.fromJson (BlockData.toJson (.manufacturerBlockData d)) =
      some (.manufacturerBlockData d) := by
  obtain ⟨a, b, c, e⟩ := d
  have h0 : asString (ManufacturerBlockData.toJson ⟨a, b, c, e⟩) = none := rfl
  have h1 : RawMaterialsProducerBlockData.fromJson (ManufacturerBlockData.toJson ⟨a, b, c, e⟩) =
      none := rfl
  have h2 : SupplierBlockData.fromJson (ManufacturerBlockData.toJson ⟨a, b, c, e⟩) = none := rfl
  simp [BlockData.fromJson, BlockData.toJson, h0, h1, h2,
    manufacturerStruct_roundtrip, Option.orElse]

/-- Decoding an encoded `DistributorBlockData` value selects that variant. -/
theorem blockData_rt_distributor (d : DistributorBlockData) :
    BlockData.fromJson (BlockData.toJson (.distributorBlockData d)) =
      some (.distributorBlockData d) := by
  obtain ⟨a, b, c, e⟩ := d
  have h0 : asString (DistributorBlockData.toJson ⟨a, b, c, e⟩) = none := rfl
  have h1 : RawMaterialsProducerBlockData.fromJson (DistributorBlockData.toJson ⟨a, b, c, e⟩) =
      none := rfl
  have h2 : SupplierBlockData.fromJson (DistributorBlockData.toJson ⟨a, b, c, e⟩) = none := rfl
  have h3 : ManufacturerBlockData.fromJson (DistributorBlockData.toJson ⟨a, b, c, e⟩) = none := rfl
  simp [BlockData.fromJson, BlockData.toJson, h0, h1, h2, h3,
    distributorStruct_roundtrip, Option.orElse]

/-- Decoding an encoded `RetailerBlockData` value selects that variant. -/
theorem blockData_rt_retailer (d : RetailerBlockData) :
    BlockData.fromJson (BlockData.toJson (.retailerBlockData d)) =
      some (.retailerBlockData d) := by
  obtain ⟨a, b, c, e⟩ := d
  have h0 : asString (RetailerBlockData.toJson ⟨a, b, c, e⟩) = none := rfl
  have h1 : RawMaterialsProducerBlockData.fromJson (RetailerBlockData.toJson ⟨a, b, c, e⟩) =
      none := rfl
  have h2 : SupplierBlockData.fromJson (RetailerBlockData.toJson ⟨a, b, c, e⟩) = none := rfl
  have h3 : ManufacturerBlockData.fromJson (RetailerBlockData.toJson ⟨a, b, c, e⟩) = none := rfl
  have h4 : DistributorBlockData.fromJson (RetailerBlockData.toJson ⟨a, b, c, e⟩) = none := rfl
  simp [BlockData.fromJson, BlockData.toJson, h0, h1, h2, h3, h4,
    retailerStruct_roundtrip, Option.orElse]

/-- Decoding an encoded `ConsumerBlockData` value selects that variant. -/
theorem blockData_rt_consumer (d : ConsumerBlockData) :
    BlockData.fromJson (BlockData.toJson (.consumerBlockData d)) =
      some (.consumerBlockData d) := by
  obtain ⟨a, b⟩ := d
  have h0 : asString (ConsumerBlockData.toJson ⟨a, b⟩) = none := rfl
  have h1 : RawMaterialsProducerBlockData.fromJson (ConsumerBlockData.toJson ⟨a, b⟩) = none := rfl
  have h2 : SupplierBlockData.fromJson (ConsumerBlockData.toJson ⟨a, b⟩) = none := rfl
  have h3 : ManufacturerBlockData.fromJson (ConsumerBlockData.toJson ⟨a, b⟩) = none := rfl
  have h4 : DistributorBlockData.fromJson (ConsumerBlockData.toJson ⟨a, b⟩) = none := rfl
  have h5 : RetailerBlockData.fromJson (ConsumerBlockData.toJson ⟨a, b⟩) = none := rfl
  simp [BlockData.fromJson, BlockData.toJson, h0, h1, h2, h3, h4, h5,
    consumerStruct_roundtrip, Option.orElse]

/-- Decoding an encoded `StartTransportationData` value selects that
variant. -/
theorem blockData_rt_startTransportation (d : StartTransportationData) :
    BlockData.fromJson (BlockData.toJson (.startTransportationData d)) =
      some (.startTransportationData d) := by
  obtain ⟨a, b, c, e⟩ := d
  have h0 : asString (StartTransportationData.toJson ⟨a, b, c, e⟩) = none := rfl
  have h1 : RawMaterialsProducerBlockData.fromJson (StartTransportationData.toJson ⟨a, b, c, e⟩) =
      none := rfl
  have h2 : SupplierBlockData.fromJson (StartTransportationData.toJson ⟨a, b, c, e⟩) = none := rfl
  have h3 : ManufacturerBlockData.fromJson (StartTransportationData.toJson ⟨a, b, c, e⟩) =
      none := rfl
  have h4 : DistributorBlockData.fromJson (StartTransportationData.toJson ⟨a, b, c, e⟩) =
      none := rfl
  have h5 : RetailerBlockData.fromJson (StartTransportationData.toJson ⟨a, b, c, e⟩) = none := rfl
  have h6 : ConsumerBlockData.fromJson (StartTransportationData.toJson ⟨a, b, c, e⟩) = none := rfl
  simp [BlockData.fromJson, BlockData.toJson, h0, h1, h2, h3, h4, h5, h6,
    startTransportationStruct_roundtrip, Option.orElse]

/-- Decoding an encoded `DeliveredTransportationData` value selects that
variant. -/
theorem blockData_rt_deliveredTransportation (d : DeliveredTransportationData) :
    BlockData.fromJson (BlockData.toJson (.deliveredTransportationData d)) =
      some (.deliveredTransportationData d) := by
  obtain ⟨a, b, c, e⟩ := d
  have h0 : asString (DeliveredTransportationData.toJson ⟨a, b, c, e⟩) = none := rfl
  have h1 : RawMaterialsProducerBlockData.fromJson
      (DeliveredTransportationData.toJson ⟨a, b, c, e⟩) = none := rfl
  have h2 : SupplierBlockData.fromJson (DeliveredTransportationData.toJson ⟨a, b, c, e⟩) =
      none := rfl
  have h3 : ManufacturerBlockData.fromJson (DeliveredTransportationData.toJson ⟨a, b, c, e⟩) =
      none := rfl
  have h4 : DistributorBlockData.fromJson (DeliveredTransportationData.toJson ⟨a, b, c, e⟩) =
      none := rfl
  have h5 : RetailerBlockData.fromJson (DeliveredTransportationData.toJson ⟨a, b, c, e⟩) =
      none := rfl
  have h6 : ConsumerBlockData.fromJson (DeliveredTransportationData.toJson ⟨a, b, c, e⟩) =
      none := rfl
  have h7 : StartTransportationData.fromJson (DeliveredTransportationData.toJson ⟨a, b, c, e⟩) =
      none := rfl
  simp [BlockData.fromJson, BlockData.toJson, h0, h1, h2, h3, h4, h5, h6, h7,
    deliveredTransportationStruct_roundtrip, Option.orElse]

/-- Decoding an encoded `MetricData` value selects that variant. -/
theorem blockData_rt_metric (d : MetricData) :
    BlockData.fromJson (BlockData.toJson (.metricData d)) = some (.metricData d) := by
  obtain ⟨a, b, c, e, f⟩ := d
  have h0 : asString (MetricData.toJson ⟨a, b, c, e, f⟩) = none := rfl
  have h1 : RawMaterialsProducerBlockData.fromJson (MetricData.toJson ⟨a, b, c, e, f⟩) =
      none := rfl
  have h2 : SupplierBlockData.fromJson (MetricData.toJson ⟨a, b, c, e, f⟩) = none := rfl
  have h3 : ManufacturerBlockData.fromJson (MetricData.toJson ⟨a, b, c, e, f⟩) = none := rfl
  have h4 : DistributorBlockData.fromJson (MetricData.toJson ⟨a, b, c, e, f⟩) = none := rfl
  have h5 : RetailerBlockData.fromJson (MetricData.toJson ⟨a, b, c, e, f⟩) = none := rfl
  have h6 : ConsumerBlockData.fromJson (MetricData.toJson ⟨a, b, c, e, f⟩) = none := rfl
  have h7 : StartTransportationData.fromJson (MetricData.toJson ⟨a, b, c, e, f⟩) = none := rfl
  have h8 : DeliveredTransportationData.fromJson (MetricData.toJson ⟨a, b, c, e, f⟩) =
      none := rfl
  simp [BlockData.fromJson, BlockData.toJson, h0, h1, h2, h3, h4, h5, h6, h7, h8,
    metricStruct_roundtrip, Option.orElse]

/-- Untagged-union round trip: decoding the encoding of any `BlockData`
value recovers exactly that value (first structural match is the encoded
variant itself). -/
theorem blockData_roundtrip (d : BlockData) :
    BlockData.fromJson d.toJson = some d := by
  cases d with
  | basicBlockData s => rfl
  | rawMaterialsProducerBlockData d => exact blockData_rt_rawMaterials d
  | supplierBlockData d => exact blockData_rt_supplier d
  | manufacturerBlockData d => exact blockData_rt_manufacturer d
  | distributorBlockData d => exact blockData_rt_distributor d
  | retailerBlockData d => exact blockData_rt_retailer d
  | consumerBlockData d => exact blockData_rt_consumer d
  | startTransportationData d => exact blockData_rt_startTransportation d
  | deliveredTransportationData d => exact blockData_rt_deliveredTransportation d
  | metricData d => exact blockData_rt_metric d

/-- Envelope round trip through the read-side shape. -/
theorem taggedDataPayload_roundtrip (p : TaggedDataPayload) :
    TaggedDataPayload.fromJson p.toJson = some p := by
  obtain ⟨bt, d⟩ := p
  simp [TaggedDataPayload.fromJson, TaggedDataPayload.toJson, reqString, jField, jLookup,
    asString, blockData_roundtrip]

/-- Envelope round trip through the write-side shape. -/
theorem blockPayload_roundtrip (p : BlockPayload) :
    BlockPayload.fromJson p.toJson = some p := by
  obtain ⟨t, d⟩ := p
  simp [BlockPayload.fromJson, BlockPayload.toJson, reqString, jField, jLookup,
    asString, blockData_roundtrip]

/-! ## Sampling-loop lemmas -/

theorem tipFrom_succ (results : ℕ → Option String) (start : String) (i k : ℕ) :
    tipFrom results start i (k + 1) = tipFrom results (applyPost start (results i)) (i + 1) k :=
  rfl

theorem attemptsFrom_succ (outcomes : ℕ → Option String × Option String) (i k : ℕ) :
    attemptsFrom outcomes i (k + 1) =
      .temperaturePost i (outcomes i).1 :: .humidityPost i (outcomes i).2 ::
        attemptsFrom outcomes (i + 1) k :=
  rfl

/-- Number of successful posts among `results i, ..., results (i + k - 1)`. -/
def successCount (results : ℕ → Option String) (i k : ℕ) : ℕ :=
  match k with
  | 0 => 0
  | k + 1 =>
    (match results i with
     | some _ => 1
     | none => 0) + successCount results (i + 1) k

/-- The chain tip after a run of iterations is the last successfully posted
id, or the seed when every post failed. -/
theorem tipFrom_eq_getLastD (results : ℕ → Option String) :
    ∀ (k i : ℕ) (start : String),
      tipFrom results start i k = (chainFrom results i k).getLastD start := by
  intro k
  induction k with
  | zero => intro i start; rfl
  | succ k ih =>
    intro i start
    rw [tipFrom_succ]
    cases hri : results i with
    | none => simp [chainFrom, hri, applyPost, ih]
    | some id => simp [chainFrom, hri, applyPost, ih, List.getLast?_cons]

/-- The records linked into a sub-chain are exactly the successful posts. -/
theorem chainFrom_length (results : ℕ → Option String) :
    ∀ (k i : ℕ), (chainFrom results i k).length = successCount results i k := by
  intro k
  induction k with
  | zero => intro i; rfl
  | succ k ih =>
    intro i
    cases hri : results i with
    | none => simp [chainFrom, successCount, hri, ih]
    | some id =>
      simp [chainFrom, successCount, hri, ih]
      omega

/-- Full characterization of one run of the sampling loop, by induction on
the fuel: when the loop exits after iterations `i, ..., n - 1`, each chain
tip is the fold of that sub-chain's post results, the `metrics` list is the
entry list extended with exactly the two final tips, the trace is the
per-iteration temperature-then-humidity attempt list, the exit check
`elapsed (n-1) ≥ budget` held, and no earlier check met the budget. -/
theorem samplingLoop_characterization (budget : ℕ) (elapsed : ℕ → ℕ)
    (outcomes : ℕ → Option String × Option String) :
    ∀ (fuel i : ℕ) (s : SamplingState) (trace : List PostEvent)
      (s' : SamplingState) (n : ℕ) (trace' : List PostEvent),
      samplingLoop budget elapsed outcomes fuel i s trace = some (s', n, trace') →
      i < n ∧
      s'.temperature_previous_block =
        tipFrom (fun k => (outcomes k).1) s.temperature_previous_block i (n - i) ∧
      s'.humidity_previous_block =
        tipFrom (fun k => (outcomes k).2) s.humidity_previous_block i (n - i) ∧
      s'.metrics = s.metrics ++ [s'.temperature_previous_block, s'.humidity_previous_block] ∧
      trace' = trace ++ attemptsFrom outcomes i (n - i) ∧
      budget ≤ elapsed (n - 1) ∧
      (∀ k, i ≤ k → k + 1 < n → elapsed k < budget) := by
  intro fuel
  induction fuel with
  | zero =>
    intro i s trace s' n trace' h
    simp [samplingLoop] at h
  | succ fuel ih =>
    intro i s trace s' n trace' h
    simp only [samplingLoop] at h
    by_cases hb : budget ≤ elapsed i
    · rw [if_pos hb] at h
      simp only [Option.some.injEq, Prod.mk.injEq] at h
      obtain ⟨hs, hn, ht⟩ := h
      subst hn
      subst hs
      subst ht
      have h1 : i + 1 - i = 1 := by omega
      refine ⟨by omega, ?_, ?_, by simp, ?_, ?_, ?_⟩
      · rw [h1, tipFrom_succ]
        rfl
      · rw [h1, tipFrom_succ]
        rfl
      · rw [h1, attemptsFrom_succ]
        rfl
      · simpa using hb
      · intro k hk hk1
        omega
    · rw [if_neg hb] at h
      obtain ⟨h1, h2, h3, h4, h5, h6, h7⟩ :=
        ih (i + 1) ⟨applyPost s.temperature_previous_block (outcomes i).1,
          applyPost s.humidity_previous_block (outcomes i).2, s.metrics⟩
          (trace ++ [.temperaturePost i (outcomes i).1, .humidityPost i (outcomes i).2])
          s' n trace' h
      have hni : n - i = (n - (i + 1)) + 1 := by omega
      refine ⟨by omega, ?_, ?_, by simpa using h4, ?_, h6, ?_⟩
      · rw [hni, tipFrom_succ]
        exact h2
      · rw [hni, tipFrom_succ]
        exact h3
      · rw [hni, attemptsFrom_succ, h5]
        simp
      · intro k hk hk1
        by_cases hki : k = i
        · subst hki
          omega
        · exact h7 k (by omega) hk1

/-- The sampling loop as entered by `main`: both tips seeded with the
`StartTransportation` id and `metrics` initially empty. -/
theorem runSampling_spec (startId : String) (budget : ℕ) (elapsed : ℕ → ℕ)
    (outcomes : ℕ → Option String × Option String) (fuel : ℕ)
    (s' : SamplingState) (n : ℕ) (trace' : List PostEvent)
    (h : runSampling startId budget elapsed outcomes fuel = some (s', n, trace')) :
    0 < n ∧
    s'.temperature_previous_block = tipFrom (fun k => (outcomes k).1) startId 0 n ∧
    s'.humidity_previous_block = tipFrom (fun k => (outcomes k).2) startId 0 n ∧
    s'.metrics = [s'.temperature_previous_block, s'.humidity_previous_block] ∧
    trace' = attemptsFrom outcomes 0 n ∧
    budget ≤ elapsed (n - 1) ∧
    (∀ k, k + 1 < n → elapsed k < budget) := by
  obtain ⟨h1, h2, h3, h4, h5, h6, h7⟩ :=
    samplingLoop_characterization budget elapsed outcomes fuel 0 ⟨startId, startId, []⟩ []
      s' n trace' h
  simp only [Nat.sub_zero] at h2 h3 h5
  refine ⟨h1, h2, h3, by simpa using h4, by simpa using h5, h6, fun k hk => h7 k (Nat.zero_le k) hk⟩

/-! ## Rounding lemmas for the metric sampler -/

theorem floor_half_zero : ⌊(1 : ℚ) / 2⌋ = 0 := by
  rw [Int.floor_eq_zero_iff]
  constructor <;> norm_num

theorem floor_add_half_between (a b : ℤ) (q : ℚ) (hA : (a : ℚ) ≤ q) (hB : q ≤ (b : ℚ)) :
    a ≤ ⌊q + 1 / 2⌋ ∧ ⌊q + 1 / 2⌋ ≤ b := by
  constructor
  · have h := Int.floor_le_floor (α := ℚ) (add_le_add_right hA (1 / 2))
    rw [Int.floor_int_add, floor_half_zero] at h
    omega
  · have h := Int.floor_le_floor (α := ℚ) (add_le_add_right hB (1 / 2))
    rw [Int.floor_int_add, floor_half_zero] at h
    omega

/-- Rounding half away from zero keeps a value between integer bounds. -/
theorem rustRound_between (a b : ℤ) (q : ℚ) (hA : (a : ℚ) ≤ q) (hB : q ≤ (b : ℚ)) :
    a ≤ rustRound q ∧ rustRound q ≤ b := by
  unfold rustRound
  by_cases hq : 0 ≤ q
  · rw [if_pos hq]
    exact floor_add_half_between a b q hA hB
  · rw [if_neg hq]
    have h := floor_add_half_between (-b) (-a) (-q)
      (by push_cast; linarith) (by push_cast; linarith)
    omega

/-! ## Claims -/

/-- C9: `gen_random_number` is typed `Result` but its error branch is
unreachable: for every pair of bounds and every random draw it returns
`Ok`, so building a `Metric` record never fails at the sampling step. -/
theorem gen_random_number_always_ok (min max r : ℚ) :
    ∃ v, gen_random_number min max r = Except.ok v :=
  ⟨_, rfl⟩

/-- C8 counterexample: with `min = 0.014`, `max = 1` and draw `r = 0` the
raw value is `0.014`, which the rounding rule `round(raw*100)/100` maps to
`0.01 < min`; so `min <= sample(min,max)` fails as stated. -/
theorem gen_random_number_bounds_counterexample :
    gen_random_number (7 / 500) 1 0 = Except.ok (1 / 100) ∧
    ¬ ((7 : ℚ) / 500 ≤ 1 / 100) := by
  constructor
  · show Except.ok ((rustRound ((7 / 500 + (1 - 7 / 500) * 0) * 100) : ℚ) / 100) = _
    norm_num [rustRound]
  · norm_num

/-- C8 amended: the sampler computes `round(raw*100)/100` on
`raw = min + (max - min) * r`; the result always has at most two decimal
digits, and whenever `100*min` and `100*max` are integers (as for both
profiles the program uses, `[-5, 30]` and `[0, 100]`) the rounded result
stays within `[min, max]`. For bounds that are not whole numbers of
hundredths the bound can fail (see the counterexample). -/
theorem gen_random_number_bounds (min max r : ℚ) (h0 : 0 ≤ r) (h1 : r < 1)
    (hmm : min ≤ max) (a b : ℤ) (ha : (a : ℚ) = 100 * min) (hb : (b : ℚ) = 100 * max) :
    ∃ v, gen_random_number min max r = Except.ok v ∧ min ≤ v ∧ v ≤ max ∧
      ∃ k : ℤ, v = (k : ℚ) / 100 := by
  refine ⟨(rustRound ((min + (max - min) * r) * 100) : ℚ) / 100, rfl, ?_, ?_, ⟨_, rfl⟩⟩
  all_goals
    have hup : (max - min) * r ≤ max - min :=
      mul_le_of_le_one_right (sub_nonneg.mpr hmm) (le_of_lt h1)
    have hdn : 0 ≤ (max - min) * r := mul_nonneg (sub_nonneg.mpr hmm) h0
    have hA : (a : ℚ) ≤ (min + (max - min) * r) * 100 := by rw [ha]; nlinarith
    have hB : (min + (max - min) * r) * 100 ≤ (b : ℚ) := by rw [hb]; nlinarith
    obtain ⟨hl, hr⟩ := rustRound_between a b _ hA hB
    have hl' : (a : ℚ) ≤ (rustRound ((min + (max - min) * r) * 100) : ℚ) :=
      Int.cast_le.mpr hl
    have hr' : (rustRound ((min + (max - min) * r) * 100) : ℚ) ≤ (b : ℚ) :=
      Int.cast_le.mpr hr
  · linarith
  · linarith

/-- C8 witness: at the temperature profile `[-5, 30]` with draw `1/2`, the
amended bound theorem applies and yields a sample inside the range. -/
theorem gen_random_number_bounds_witness :
    (0 : ℚ) ≤ 1 / 2 ∧ (1 : ℚ) / 2 < 1 ∧ (-5 : ℚ) ≤ 30 ∧
    ((-500 : ℤ) : ℚ) = 100 * (-5) ∧ ((3000 : ℤ) : ℚ) = 100 * 30 ∧
    ∃ v, gen_random_number (-5) 30 (1 / 2) = Except.ok v ∧ (-5 : ℚ) ≤ v ∧ v ≤ 30 ∧
      ∃ k : ℤ, v = (k : ℚ) / 100 :=
  ⟨by norm_num, by norm_num, by norm_num, by norm_num, by norm_num,
    gen_random_number_bounds (-5) 30 (1 / 2) (by norm_num) (by norm_num) (by norm_num)
      (-500) 3000 (by norm_num) (by norm_num)⟩

/-- C7: `Init` accepts a candidate root identifier exactly when it starts
with `0x` and is exactly 66 characters long; an identifier missing the
prefix, or of length 65, is rejected (error kind `InvalidBlockIdFormat`,
surfaced as the two `Anyhow` messages of `block_id_input`) with zero
gateway calls performed. -/
theorem block_id_validation_spec :
    (∀ s : String, validate_block_id s = .ok s ↔
      (startsWith0x s = true ∧ s.length = 66)) ∧
    (∀ (s : String) (fetch : String → Except Error BlockDto),
      startsWith0x s = false →
      (init_then_fetch s fetch).2 = 0 ∧
      (init_then_fetch s fetch).1 = .error (.anyhow "BlockId must start with 0x")) ∧
    (∀ (s : String) (fetch : String → Except Error BlockDto),
      s.length = 65 →
      (init_then_fetch s fetch).2 = 0 ∧
      ∃ msg, (init_then_fetch s fetch).1 = .error (.anyhow msg)) := by
  refine ⟨fun s => ⟨fun h => ?_, fun h => ?_⟩, fun s fetch hp => ?_, fun s fetch hl => ?_⟩
  · by_cases hp : startsWith0x s
    · by_cases hl : s.length = 66
      · exact ⟨hp, hl⟩
      · simp [validate_block_id, hp, hl] at h
    · simp [validate_block_id, hp] at h
  · simp [validate_block_id, h.1, h.2]
  · simp [init_then_fetch, validate_block_id, hp]
  · by_cases hp : startsWith0x s
    · have hl66 : s.length ≠ 66 := by omega
      refine ⟨?_, "BlockId must be 66 characters long", ?_⟩ <;>
        simp [init_then_fetch, validate_block_id, hp, hl66]
    · refine ⟨?_, "BlockId must start with 0x", ?_⟩ <;>
        simp [init_then_fetch, validate_block_id, hp]

/-- C7 witness: a well-formed 66-character `0x`-identifier validates, a
65-character identifier and an identifier without the `0x` head are both
rejected before any fetch. -/
theorem block_id_validation_spec_witness :
    validate_block_id "0xaaaaaaaaaaaaaaaaaaaaaaaaaaaaaaaaaaaaaaaaaaaaaaaaaaaaaaaaaaaaaaaa" =
      .ok "0xaaaaaaaaaaaaaaaaaaaaaaaaaaaaaaaaaaaaaaaaaaaaaaaaaaaaaaaaaaaaaaaa" ∧
    (init_then_fetch "0xaaaaaaaaaaaaaaaaaaaaaaaaaaaaaaaaaaaaaaaaaaaaaaaaaaaaaaaaaaaaaaa"
      (fun _ => .error .io)).2 = 0 ∧
    (init_then_fetch "qq" (fun _ => .error .io)).2 = 0 :=
  ⟨(block_id_validation_spec.1 _).mpr (by constructor <;> decide),
    (block_id_validation_spec.2.2 _ _ (by decide)).1,
    (block_id_validation_spec.2.1 _ _ (by decide)).1⟩

/-- C5 counterexample: the serialized `PaymentInfo` carries its cost under
the wire name `smrCost`, not `cost`, and the serialized `ProductInfo`
carries its attachment pointer under `fileCid`, not `fileReference`. -/
theorem wire_field_names_counterexample :
    jLookup (jFields (PaymentInfo.toJson ⟨"w", 1⟩)) "cost" = none ∧
    jLookup (jFields (PaymentInfo.toJson ⟨"w", 1⟩)) "smrCost" = some (.num 1) ∧
    jLookup (jFields (ProductInfo.toJson ⟨"i", some "c"⟩)) "fileReference" = none ∧
    jLookup (jFields (ProductInfo.toJson ⟨"i", some "c"⟩)) "fileCid" = some (.str "c") :=
  ⟨rfl, rfl, rfl, rfl⟩

/-- C5 amended: on the wire a serialized `PaymentInfo` is the object
`{ walletAddress: string, smrCost: float64 }` and a serialized
`ProductInfo` is `{ info: string, fileCid: optional string }`; the encoder
writes an absent attachment as `fileCid: null`, and the decoder reads a
missing or `null` `fileCid` as no attachment. These camelCase names are the
wire contract for every record the program encodes or decodes. -/
theorem wire_field_names_contract :
    (∀ p : PaymentInfo, p.toJson =
      .obj [("walletAddress", .str p.wallet_address), ("smrCost", .num p.smr_cost)]) ∧
    (∀ i : String, (ProductInfo.mk i none).toJson =
      .obj [("info", .str i), ("fileCid", .null)]) ∧
    (∀ i c : String, (ProductInfo.mk i (some c)).toJson =
      .obj [("info", .str i), ("fileCid", .str c)]) ∧
    (∀ i : String, ProductInfo.fromJson (.obj [("info", .str i)]) = some ⟨i, none⟩) ∧
    (∀ i : String, ProductInfo.fromJson (.obj [("info", .str i), ("fileCid", .null)]) =
      some ⟨i, none⟩) :=
  ⟨fun _ => rfl, fun _ => rfl, fun _ _ => rfl, fun _ => rfl, fun _ => rfl⟩

/-- C2 counterexample: bytes encoded from the write-side envelope carry the
field name `tag`, but the read-side `TaggedDataPayload` decoder requires
the field name `blockType`, so the cross-shape round trip
`decode(encode(Envelope\x7btag, data\x7d))` fails outright. -/
theorem envelope_cross_shape_counterexample :
    BlockPayload.toJson ⟨"t", .basicBlockData "x"⟩ =
      .obj [("tag", .str "t"), ("data", .str "x")] ∧
    TaggedDataPayload.fromJson (BlockPayload.toJson ⟨"t", .basicBlockData "x"⟩) = none :=
  ⟨rfl, rfl⟩

/-- C2 amended: for every tag string and every `Payload` variant value,
each envelope shape round-trips through itself: decoding the serialization
of the read-side `TaggedDataPayload` (wire key `blockType`) recovers the
data field-for-field, and likewise for the write-side `BlockPayload` (wire
key `tag`); both parse and serialize through the same untagged `BlockData`
union. The cross-shape composition fails because the two shapes use
different wire keys. -/
theorem envelope_roundtrip (name : String) (data : BlockData) :
    TaggedDataPayload.fromJson (TaggedDataPayload.toJson ⟨name, data⟩) = some ⟨name, data⟩ ∧
    BlockPayload.fromJson (BlockPayload.toJson ⟨name, data⟩) = some ⟨name, data⟩ :=
  ⟨taggedDataPayload_roundtrip _, blockPayload_roundtrip _⟩

/-! ### Minimal objects for variant discrimination (C6) -/

def minProductInfoObj : Json := .obj [("info", .str "i")]

def minPaymentObj : Json := .obj [("walletAddress", .str "w"), ("smrCost", .num 0)]

def minResourceObj : Json :=
  .obj [("previousBlock", .str "pb"), ("transactionReceipt", .str "tr")]

def minResourcesObj : Json :=
  .obj [("previousBlocks", .arr []), ("transactionReceipts", .arr [])]

def minBasicObj : Json := .str "b"

def minRawMaterialsObj : Json :=
  .obj [("providerInfo", .str "p"), ("materialInfo", minProductInfoObj),
        ("exportTimestamp", .str "t"),
        ("exportLocation", .obj [("longitude", .num 0), ("latitude", .num 0)]),
        ("paymentInfo", minPaymentObj)]

def minSupplierObj : Json :=
  .obj [("supplierInfo", .str "s"), ("processedMaterialInfo", minProductInfoObj),
        ("resources", minResourcesObj), ("paymentInfo", minPaymentObj)]

def minManufacturerObj : Json :=
  .obj [("manufacturerInfo", .str "m"), ("productInfo", minProductInfoObj),
        ("resources", minResourcesObj), ("paymentInfo", minPaymentObj)]

def minDistributorObj : Json :=
  .obj [("distributorInfo", .str "d"), ("productDistributionInfo", minProductInfoObj),
        ("resource", minResourceObj), ("paymentInfo", minPaymentObj)]

def minRetailerObj : Json :=
  .obj [("retailerInfo", .str "r"), ("productRetailInfo", minProductInfoObj),
        ("paymentInfo", minPaymentObj), ("resource", minResourceObj)]

def minConsumerObj : Json :=
  .obj [("consumerInfo", .str "c"), ("resource", minResourceObj)]

def minStartObj : Json :=
  .obj [("transportationCompanyInfo", .str "tc"), ("transportationInfo", minProductInfoObj),
        ("startTimestamp", .str "ts"), ("previousBlock", .str "pb")]

def minDeliveredObj : Json :=
  .obj [("productDeliveryInfo", minProductInfoObj), ("deliveryTimestamp", .str "ts"),
        ("paymentInfo", minPaymentObj), ("metrics", .arr [])]

def minMetricObj : Json :=
  .obj [("metricType", .str "mt"), ("metricValue", .num 0),
        ("measurementUnit", .str "u"), ("timestamp", .str "ts"),
        ("previousBlock", .str "pb")]

/-- How many of the ten variant decoders structurally match a JSON value. -/
def variantMatchCount (j : Json) : ℕ :=
  (if (asString j).isSome then 1 else 0) +
  (if (RawMaterialsProducerBlockData.fromJson j).isSome then 1 else 0) +
  (if (SupplierBlockData.fromJson j).isSome then 1 else 0) +
  (if (ManufacturerBlockData.fromJson j).isSome then 1 else 0) +
  (if (DistributorBlockData.fromJson j).isSome then 1 else 0) +
  (if (RetailerBlockData.fromJson j).isSome then 1 else 0) +
  (if (ConsumerBlockData.fromJson j).isSome then 1 else 0) +
  (if (StartTransportationData.fromJson j).isSome then 1 else 0) +
  (if (DeliveredTransportationData.fromJson j).isSome then 1 else 0) +
  (if (MetricData.fromJson j).isSome then 1 else 0)

/-- C6: decoding resolves the untagged union by trying the variants in the
fixed declaration order (`BlockData.fromJson` is that ordered trial), and
the variants are mutually distinguishable: on each variant's minimal
object, exactly one of the ten variant decoders matches, and the ordered
decoder picks exactly that variant. -/
theorem payload_variant_unambiguity :
    (variantMatchCount minBasicObj = 1 ∧
      BlockData.fromJson minBasicObj = some (.basicBlockData "b")) ∧
    (variantMatchCount minRawMaterialsObj = 1 ∧
      BlockData.fromJson minRawMaterialsObj =
        some (.rawMaterialsProducerBlockData ⟨"p", ⟨"i", none⟩, "t", ⟨0, 0⟩, ⟨"w", 0⟩⟩)) ∧
    (variantMatchCount minSupplierObj = 1 ∧
      BlockData.fromJson minSupplierObj =
        some (.supplierBlockData ⟨"s", ⟨"i", none⟩, ⟨[], []⟩, ⟨"w", 0⟩⟩)) ∧
    (variantMatchCount minManufacturerObj = 1 ∧
      BlockData.fromJson minManufacturerObj =
        some (.manufacturerBlockData ⟨"m", ⟨"i", none⟩, ⟨[], []⟩, ⟨"w", 0⟩⟩)) ∧
    (variantMatchCount minDistributorObj = 1 ∧
      BlockData.fromJson minDistributorObj =
        some (.distributorBlockData ⟨"d", ⟨"i", none⟩, ⟨"pb", "tr"⟩, ⟨"w", 0⟩⟩)) ∧
    (variantMatchCount minRetailerObj = 1 ∧
      BlockData.fromJson minRetailerObj =
        some (.retailerBlockData ⟨"r", ⟨"i", none⟩, ⟨"w", 0⟩, ⟨"pb", "tr"⟩⟩)) ∧
    (variantMatchCount minConsumerObj = 1 ∧
      BlockData.fromJson minConsumerObj =
        some (.consumerBlockData ⟨"c", ⟨"pb", "tr"⟩⟩)) ∧
    (variantMatchCount minStartObj = 1 ∧
      BlockData.fromJson minStartObj =
        some (.startTransportationData ⟨"tc", ⟨"i", none⟩, "ts", "pb"⟩)) ∧
    (variantMatchCount minDeliveredObj = 1 ∧
      BlockData.fromJson minDeliveredObj =
        some (.deliveredTransportationData ⟨⟨"i", none⟩, "ts", ⟨"w", 0⟩, []⟩)) ∧
    (variantMatchCount minMetricObj = 1 ∧
      BlockData.fromJson minMetricObj =
        some (.metricData ⟨"mt", 0, "u", "ts", "pb"⟩)) :=
  ⟨⟨rfl, rfl⟩, ⟨rfl, rfl⟩, ⟨rfl, rfl⟩, ⟨rfl, rfl⟩, ⟨rfl, rfl⟩,
    ⟨rfl, rfl⟩, ⟨rfl, rfl⟩, ⟨rfl, rfl⟩, ⟨rfl, rfl⟩, ⟨rfl, rfl⟩⟩

/-- C1: `extract_payment_info` on a record with no body fails with the
missing-payload error; on a body whose outer transport type is not tagged
data it fails with the unexpected-transport-type error; and for every
decoded `TaggedDataPayload` envelope it returns the exact embedded
`PaymentInfo` when the variant is one of the five payment-bearing kinds
and fails with the unsupported-payload error for every other variant. -/
theorem extract_payment_info_spec :
    (∀ b : BlockDto, b.payload = none →
      extract_payment_info b = .error (.anyhow "Block has no payload")) ∧
    (∀ (b : BlockDto) (p : PayloadDto), b.payload = some p →
      (∀ j, p ≠ .taggedData j) →
      extract_payment_info b = .error (.anyhow "Block payload is not tagged data")) ∧
    (∀ (j : Json) (bt : String) (d : RawMaterialsProducerBlockData),
      TaggedDataPayload.fromJson j = some ⟨bt, .rawMaterialsProducerBlockData d⟩ →
      extract_payment_info ⟨some (.taggedData j)⟩ = .ok d.payment_info) ∧
    (∀ (j : Json) (bt : String) (d : SupplierBlockData),
      TaggedDataPayload.fromJson j = some ⟨bt, .supplierBlockData d⟩ →
      extract_payment_info ⟨some (.taggedData j)⟩ = .ok d.payment_info) ∧
    (∀ (j : Json) (bt : String) (d : ManufacturerBlockData),
      TaggedDataPayload.fromJson j = some ⟨bt, .manufacturerBlockData d⟩ →
      extract_payment_info ⟨some (.taggedData j)⟩ = .ok d.payment_info) ∧
    (∀ (j : Json) (bt : String) (d : DistributorBlockData),
      TaggedDataPayload.fromJson j = some ⟨bt, .distributorBlockData d⟩ →
      extract_payment_info ⟨some (.taggedData j)⟩ = .ok d.payment_info) ∧
    (∀ (j : Json) (bt : String) (d : RetailerBlockData),
      TaggedDataPayload.fromJson j = some ⟨bt, .retailerBlockData d⟩ →
      extract_payment_info ⟨some (.taggedData j)⟩ = .ok d.payment_info) ∧
    (∀ (j : Json) (bt : String) (s : String),
      TaggedDataPayload.fromJson j = some ⟨bt, .basicBlockData s⟩ →
      extract_payment_info ⟨some (.taggedData j)⟩ =
        .error (.anyhow "Block payload does not contain payment info data")) ∧
    (∀ (j : Json) (bt : String) (d : ConsumerBlockData),
      TaggedDataPayload.fromJson j = some ⟨bt, .consumerBlockData d⟩ →
      extract_payment_info ⟨some (.taggedData j)⟩ =
        .error (.anyhow "Block payload does not contain payment info data")) ∧
    (∀ (j : Json) (bt : String) (d : StartTransportationData),
      TaggedDataPayload.fromJson j = some ⟨bt, .startTransportationData d⟩ →
      extract_payment_info ⟨some (.taggedData j)⟩ =
        .error (.anyhow "Block payload does not contain payment info data")) ∧
    (∀ (j : Json) (bt : String) (d : DeliveredTransportationData),
      TaggedDataPayload.fromJson j = some ⟨bt, .deliveredTransportationData d⟩ →
      extract_payment_info ⟨some (.taggedData j)⟩ =
        .error (.anyhow "Block payload does not contain payment info data")) ∧
    (∀ (j : Json) (bt : String) (d : MetricData),
      TaggedDataPayload.fromJson j = some ⟨bt, .metricData d⟩ →
      extract_payment_info ⟨some (.taggedData j)⟩ =
        .error (.anyhow "Block payload does not contain payment info data")) := by
  refine ⟨fun b h => ?_, fun b p hp hne => ?_, fun j bt d h => ?_, fun j bt d h => ?_,
    fun j bt d h => ?_, fun j bt d h => ?_, fun j bt d h => ?_, fun j bt s h => ?_,
    fun j bt d h => ?_, fun j bt d h => ?_, fun j bt d h => ?_, fun j bt d h => ?_⟩
  · simp [extract_payment_info, h]
  · cases p with
    | taggedData j => exact absurd rfl (hne j)
    | transaction => simp [extract_payment_info, hp]
    | milestone => simp [extract_payment_info, hp]
  all_goals simp [extract_payment_info, h]

/-- C1 witness: a decoded raw-materials-producer envelope yields its exact
embedded payment info, and a block with no payload yields the
missing-payload error. -/
theorem extract_payment_info_spec_witness :
    extract_payment_info
      ⟨some (.taggedData (TaggedDataPayload.toJson
        ⟨"rt", .rawMaterialsProducerBlockData ⟨"p", ⟨"i", none⟩, "t", ⟨0, 0⟩,
          ⟨"abc", 25 / 2⟩⟩⟩))⟩ = .ok ⟨"abc", 25 / 2⟩ ∧
    extract_payment_info ⟨none⟩ = .error (.anyhow "Block has no payload") :=
  ⟨extract_payment_info_spec.2.2.1 _ "rt" _ (taggedDataPayload_roundtrip _),
    extract_payment_info_spec.1 ⟨none⟩ rfl⟩

/-- Post-outcome oracle for the C3 counterexample: every post succeeds. -/
def outcomesAllOk : ℕ → Option String × Option String :=
  fun _ => (some "t1", some "h1")

/-- C3 counterexample: with budget 0 (already expired on entry) the loop
still runs one full iteration — two metric post attempts — because the
`loop` checks the elapsed time only after posting; with both posts
succeeding, the captured metrics are the two freshly posted ids, not
`[startId, startId]`, and the trace holds two post attempts, not zero. -/
theorem sampling_budget_zero_counterexample :
    runSampling "start" 0 (fun _ => 0) outcomesAllOk 1 =
      some (⟨"t1", "h1", ["t1", "h1"]⟩, 1,
        [.temperaturePost 0 (some "t1"), .humidityPost 0 (some "h1")]) ∧
    (["t1", "h1"] : List String) ≠ ["start", "start"] ∧
    ([PostEvent.temperaturePost 0 (some "t1"),
      PostEvent.humidityPost 0 (some "h1")] : List PostEvent).length ≠ 0 := by
  refine ⟨rfl, by decide, by decide⟩

/-- C3 amended: the loop body runs before the time check, so with budget 0
the loop performs exactly one iteration — one temperature and one humidity
post attempt, in that order — and then exits; the captured metrics are the
two tips after that iteration (the posted ids on success, the start id
only for failed posts). In general the loop exits at the end of the first
iteration whose elapsed time is at least the budget, capturing the two
current chain tips. -/
theorem sampling_budget_zero_amended (startId : String) (elapsed : ℕ → ℕ)
    (outcomes : ℕ → Option String × Option String) (fuel : ℕ) :
    runSampling startId 0 elapsed outcomes (fuel + 1) =
      some (⟨applyPost startId (outcomes 0).1, applyPost startId (outcomes 0).2,
            [applyPost startId (outcomes 0).1, applyPost startId (outcomes 0).2]⟩, 1,
        [.temperaturePost 0 (outcomes 0).1, .humidityPost 0 (outcomes 0).2]) := by
  simp [runSampling, samplingLoop]

/-- C4: for every terminating run of the sampling loop in which an
arbitrary subset of post calls fail, each sub-chain's final chain-tip
pointer equals the id returned by the last successful post on that
sub-chain (the `StartTransportation` id if none succeeded) — a failed post
leaves the pointer unchanged and the loop continues — and the number of
records linked into each sub-chain equals that sub-chain's number of
successful posts, not the iteration count. -/
theorem sampling_failure_tolerance (startId : String) (budget : ℕ) (elapsed : ℕ → ℕ)
    (outcomes : ℕ → Option String × Option String) (fuel : ℕ)
    (s' : SamplingState) (n : ℕ) (trace' : List PostEvent)
    (h : runSampling startId budget elapsed outcomes fuel = some (s', n, trace')) :
    s'.temperature_previous_block =
      (chainFrom (fun k => (outcomes k).1) 0 n).getLastD startId ∧
    s'.humidity_previous_block =
      (chainFrom (fun k => (outcomes k).2) 0 n).getLastD startId ∧
    (chainFrom (fun k => (outcomes k).1) 0 n).length =
      successCount (fun k => (outcomes k).1) 0 n ∧
    (chainFrom (fun k => (outcomes k).2) 0 n).length =
      successCount (fun k => (outcomes k).2) 0 n := by
  obtain ⟨-, h2, h3, -, -, -, -⟩ :=
    runSampling_spec startId budget elapsed outcomes fuel s' n trace' h
  exact ⟨by rw [h2, tipFrom_eq_getLastD], by rw [h3, tipFrom_eq_getLastD],
    chainFrom_length _ _ _, chainFrom_length _ _ _⟩

/-- Post-outcome oracle for the C4 witness: the temperature post of
iteration 1 and the humidity post of iteration 0 fail, the rest succeed. -/
def outcomesMixed : ℕ → Option String × Option String
  | 0 => (some "t0", none)
  | 1 => (none, some "h1")
  | _ => (some "t2", some "h2")

/-- C4 witness: a concrete three-iteration run (budget 2, clock advancing
one unit per iteration) with two failed posts; both tips equal the last
successful id and both sub-chains hold exactly the successful posts. -/
theorem sampling_failure_tolerance_witness :
    SamplingState.temperature_previous_block ⟨"t2", "h2", ["t2", "h2"]⟩ =
      (chainFrom (fun k => (outcomesMixed k).1) 0 3).getLastD "s" ∧
    SamplingState.humidity_previous_block ⟨"t2", "h2", ["t2", "h2"]⟩ =
      (chainFrom (fun k => (outcomesMixed k).2) 0 3).getLastD "s" ∧
    (chainFrom (fun k => (outcomesMixed k).1) 0 3).length =
      successCount (fun k => (outcomesMixed k).1) 0 3 ∧
    (chainFrom (fun k => (outcomesMixed k).2) 0 3).length =
      successCount (fun k => (outcomesMixed k).2) 0 3 :=
  sampling_failure_tolerance "s" 2 (fun i => i) outcomesMixed 5
    ⟨"t2", "h2", ["t2", "h2"]⟩ 3
    [.temperaturePost 0 (some "t0"), .humidityPost 0 none,
     .temperaturePost 1 none, .humidityPost 1 (some "h1"),
     .temperaturePost 2 (some "t2"), .humidityPost 2 (some "h2")] rfl

/-- C10: whenever the sampling loop exits, the captured `metrics` list
passed to `Delivering` has exactly two elements — the temperature chain
tip at index 0 and the humidity chain tip at index 1, each the fold of its
sub-chain's post results — regardless of iteration count or failures; and
the trace of post attempts is, for every iteration in order, the
temperature post followed by the humidity post. -/
theorem metrics_capture_shape (startId : String) (budget : ℕ) (elapsed : ℕ → ℕ)
    (outcomes : ℕ → Option String × Option String) (fuel : ℕ)
    (s' : SamplingState) (n : ℕ) (trace' : List PostEvent)
    (h : runSampling startId budget elapsed outcomes fuel = some (s', n, trace')) :
    s'.metrics = [tipFrom (fun k => (outcomes k).1) startId 0 n,
                  tipFrom (fun k => (outcomes k).2) startId 0 n] ∧
    s'.metrics.length = 2 ∧
    trace' = attemptsFrom outcomes 0 n := by
  obtain ⟨-, h2, h3, h4, h5, -, -⟩ :=
    runSampling_spec startId budget elapsed outcomes fuel s' n trace' h
  refine ⟨by rw [h4, h2, h3], by rw [h4]; rfl, h5⟩

/-- Post-outcome oracle for the C10 witness: every humidity post fails. -/
def outcomesHumidityFails : ℕ → Option String × Option String :=
  fun _ => (some "a", none)

/-- C10 witness: a concrete two-iteration run; the captured metrics are
exactly the temperature tip then the humidity tip (the start id, since all
humidity posts failed), and the trace alternates temperature before
humidity. -/
theorem metrics_capture_shape_witness :
    SamplingState.metrics ⟨"a", "s", ["a", "s"]⟩ =
      [tipFrom (fun k => (outcomesHumidityFails k).1) "s" 0 2,
       tipFrom (fun k => (outcomesHumidityFails k).2) "s" 0 2] ∧
    (SamplingState.metrics ⟨"a", "s", ["a", "s"]⟩).length = 2 ∧
    ([.temperaturePost 0 (some "a"), .humidityPost 0 none,
      .temperaturePost 1 (some "a"), .humidityPost 1 none] : List PostEvent) =
      attemptsFrom outcomesHumidityFails 0 2 :=
  metrics_capture_shape "s" 1 (fun i => i) outcomesHumidityFails 5
    ⟨"a", "s", ["a", "s"]⟩ 2
    [.temperaturePost 0 (some "a"), .humidityPost 0 none,
     .temperaturePost 1 (some "a"), .humidityPost 1 none] rfl
